import Mathlib

/-!
Verification of the bulk media ingestion pipeline of the gallery
application, as implemented in `src/routes/gallery-admin.js`
(`router.post('/sets/:id/upload')`), `src/database/galleryDatabase.js`,
`src/database/database.js`, `src/middleware/imageProcessor.js` and
`src/middleware/autoThumbnailService.js`.

Every definition below is a shallow embedding of the corresponding
JavaScript source.  JavaScript `null`/`undefined` is modelled by
`Option.none`; SQLite tables are lists of row structures; external input/output
operations that may throw (`fs.move`, `fs.stat`, `sharp` calls,
`createMedia`) are modelled by outcome fields of the input description
or by an environment oracle, with `try`/`catch` scopes reproduced
exactly as they are nested in the source.
-/

/-- Row of the `media` table (galleryDatabase.js, `CREATE TABLE media`).
Nullable columns (`width`, `height`, `duration`, `hash`) are `Option`s. -/
structure MediaRow where
  id : Nat
  set_id : Nat
  filename : String
  original_path : String
  display_path : String
  thumb_path : String
  file_type : String
  mime_type : String
  filesize : Nat
  width : Option Nat
  height : Option Nat
  duration : Option Nat
  sort_order : Nat
  hash : Option String
deriving DecidableEq, Repr

/-- Row of the `sets` table: the columns the ingestion pipeline touches
(cover paths and the aggregate counters recomputed by `updateSetStats`). -/
structure SetRow where
  id : Nat
  name : String
  slug : String
  model_id : Nat
  cover_image_path : Option String
  cover_thumb_path : Option String
  image_count : Nat
  video_count : Nat
  total_size_bytes : Nat
deriving DecidableEq, Repr

/-- Row of the `models` table: the columns the thumbnail cascade touches. -/
structure ModelRow where
  id : Nat
  name : String
  slug : String
  studio_id : Option Nat
  profile_image_path : Option String
  profile_thumb_path : Option String
deriving DecidableEq, Repr

/-- Row of the `studios` table: the columns the thumbnail cascade touches. -/
structure StudioRow where
  id : Nat
  name : String
  slug : String
  logo_path : Option String
  logo_thumb_path : Option String
deriving DecidableEq, Repr

/-- Datastore state seen by the upload route: the `sets` and `media`
tables plus the AUTOINCREMENT counter for `media.id`. -/
structure GalleryDb where
  sets : List SetRow
  media : List MediaRow
  nextMediaId : Nat
deriving DecidableEq, Repr

/-- Object resolved by `Database.run` (database.js line 442):
`resolve({ id: this.lastID, changes: this.changes })`. -/
structure RunResult where
  id : Nat
  changes : Nat
deriving DecidableEq, Repr

/-- Property map of the object literal `{ id, changes }` built by
`Database.run`; the keys are exactly `id` and `changes`. -/
def jsProps (r : RunResult) : List (String × Nat) :=
  [("id", r.id), ("changes", r.changes)]

/-- JavaScript property access on an object: a missing key yields
`undefined`, modelled by `none`. -/
def jsGet (props : List (String × Nat)) (key : String) : Option Nat :=
  (props.find? (fun kv => kv.1 == key)).map (fun kv => kv.2)

/-- Argument record of `galleryDatabase.createMedia(data)`: every column
of the INSERT except the autoincremented `id`. -/
structure MediaData where
  set_id : Nat
  filename : String
  original_path : String
  display_path : String
  thumb_path : String
  file_type : String
  mime_type : String
  filesize : Nat
  width : Option Nat
  height : Option Nat
  duration : Option Nat
  sort_order : Nat
  hash : Option String
deriving DecidableEq, Repr

/-- Row produced by the `INSERT INTO media` statement for a fresh id. -/
def mkMediaRow (newId : Nat) (d : MediaData) : MediaRow :=
  { id := newId
    set_id := d.set_id
    filename := d.filename
    original_path := d.original_path
    display_path := d.display_path
    thumb_path := d.thumb_path
    file_type := d.file_type
    mime_type := d.mime_type
    filesize := d.filesize
    width := d.width
    height := d.height
    duration := d.duration
    sort_order := d.sort_order
    hash := d.hash }

/-- Effect of `this.run('INSERT INTO media ...')` inside `createMedia`:
append the row, bump the id counter, and resolve `{ id: lastID, changes }`. -/
def runInsertMedia (db : GalleryDb) (d : MediaData) : GalleryDb × RunResult :=
  ({ db with
      media := db.media ++ [mkMediaRow db.nextMediaId d]
      nextMediaId := db.nextMediaId + 1 },
   { id := db.nextMediaId, changes := 1 })

/-- Embedding of `galleryDatabase.createMedia` (galleryDatabase.js lines 349-359): runs
the INSERT and then returns `result.lastID` — a property access on the
`{ id, changes }` object resolved by `run`, hence `undefined` (`none`). -/
def createMedia (db : GalleryDb) (d : MediaData) : GalleryDb × Option Nat :=
  let r := runInsertMedia db d
  (r.1, jsGet (jsProps r.2) "lastID")

/-- Embedding of `galleryDatabase.updateSetStats` (lines 362-370): recompute the
aggregate counters of the set row with the given id from the media table. -/
def updateSetStats (db : GalleryDb) (sid : Nat) : GalleryDb :=
  { db with
      sets := db.sets.map fun s =>
        if s.id == sid then
          { s with
              image_count :=
                (db.media.filter (fun m => m.set_id == sid && m.file_type == "image")).length
              video_count :=
                (db.media.filter (fun m => m.set_id == sid && m.file_type == "video")).length
              total_size_bytes :=
                (db.media.filter (fun m => m.set_id == sid)).foldl (fun a m => a + m.filesize) 0 }
        else s }

/-- SQL `SELECT * FROM sets WHERE id = ?` on the embedded table. -/
def lookupSet (l : List SetRow) (i : Nat) : Option SetRow :=
  l.find? (fun s => s.id == i)

/-- Embedding of `getModelById` restricted to the columns the cascade uses. -/
def getModelById (l : List ModelRow) (i : Nat) : Option ModelRow :=
  l.find? (fun m => m.id == i)

/-- Embedding of `getStudioById` restricted to the columns the cascade uses. -/
def getStudioById (l : List StudioRow) (i : Nat) : Option StudioRow :=
  l.find? (fun s => s.id == i)

/-! ## Display variant generation (imageProcessor.js `createDisplayVariant`) -/

/-- Bound on the long edge of the display derivative
(imageProcessor.js line 146: `const maxSize = 2048`). -/
def displayMax : Nat := 2048

/-- Outcome of `createDisplayVariant`: either the source is copied
unchanged (`fs.copy`, lines 147-150) or it is resized and re-encoded. -/
inductive DisplayResult where
  | copied (w h : Nat)
  | resized (w h : Nat) (fmt : String)
deriving DecidableEq, Repr

/-- Width of the produced display derivative. -/
def dispWidth : DisplayResult → Nat
  | DisplayResult.copied w _ => w
  | DisplayResult.resized w _ _ => w

/-- Height of the produced display derivative. -/
def dispHeight : DisplayResult → Nat
  | DisplayResult.copied _ h => h
  | DisplayResult.resized _ h _ => h

/-- Rounding division used to model sharp's `fit: 'inside'` scaling of
the short edge: round (a / b) to the nearest integer. -/
def roundDiv (a b : Nat) : Nat :=
  (2 * a + b) / (2 * b)

/-- Dimensions produced by `sharp().resize(bound, bound, { fit: 'inside' })`
for an image strictly exceeding the bounding box: the long edge becomes
`bound`, the short edge is scaled proportionally (rounded). -/
def fitInside (w h bound : Nat) : Nat × Nat :=
  if h ≤ w then (bound, roundDiv (h * bound) w)
  else (roundDiv (w * bound) h, bound)

/-- Embedding of `imageProcessor.createDisplayVariant` (lines 139-176), at the level of
pixel dimensions and output format: if both dimensions are within the
2048 bound the source file is copied unchanged; otherwise it is resized
with `fit: 'inside'`, `withoutEnlargement: true`, re-encoded as png when
the source has an alpha channel and as progressive jpeg otherwise. -/
def createDisplayVariant (w h : Nat) (hasAlpha : Bool) : DisplayResult :=
  if w ≤ displayMax ∧ h ≤ displayMax then
    DisplayResult.copied w h
  else
    let d := fitInside w h displayMax
    DisplayResult.resized d.1 d.2 (if hasAlpha then "png" else "jpeg")

/-! ## The bulk upload route (gallery-admin.js lines 641-747) -/

/-- Description of one uploaded file together with the outcomes of the
external input/output operations performed on it by the route.  `moveFails` models
`fs.move` throwing, `metaResult` the outcome of `sharp(...).metadata()`
(`none` = throws), `thumbFails` the thumbnail `sharp`/`fs.copy` call
throwing, `statResult` the outcome of `fs.stat` (`none` = throws, `some
size` = success), `insertFails` the `createMedia` INSERT throwing. -/
structure UploadFile where
  originalname : String
  mimetype : String
  moveFails : Bool
  metaResult : Option (Nat × Nat)
  thumbFails : Bool
  statResult : Option Nat
  insertFails : Bool
deriving DecidableEq, Repr

/-- Embedding of `path.extname` / `path.basename(name, ext)` for names without path
separators: split off the extension at the last dot (a leading dot is
not an extension).  Returns (base, extension-with-dot). -/
def splitExt (s : String) : String × String :=
  match s.data.reverse.span (fun c => c ≠ '.') with
  | (revExt, c :: revBase) =>
      if revBase = [] then (s, "")
      else (String.mk revBase.reverse, String.mk (c :: revExt.reverse))
  | (_, []) => (s, "")

/-- JavaScript `String.prototype.startsWith`. -/
def strStartsWith (s p : String) : Bool :=
  p.data.isPrefixOf s.data

/-- Column values assembled by loop iteration `i` of the upload route for
file `f` of byte size `size` (gallery-admin.js lines 662-721): filename
and paths from the original name and the set slug, `file_type` from the
MIME prefix, dimensions only if the file is an image and `metadata()`
succeeded, `duration` always null, `sort_order` the loop index `i`, and
`hash` always null (line 720, `// TODO`). -/
def mkMediaData (slug : String) (setId i : Nat) (f : UploadFile) (size : Nat) : MediaData :=
  let be := splitExt f.originalname
  let fileName := be.1 ++ be.2
  let ftype := if strStartsWith f.mimetype "video/" then "video" else "image"
  { set_id := setId
    filename := fileName
    original_path := "uploads/media/" ++ slug ++ "/" ++ fileName
    display_path := "uploads/media/" ++ slug ++ "/" ++ fileName
    thumb_path := "uploads/thumbs/" ++ slug ++ "/" ++ be.1 ++ ".webp"
    file_type := ftype
    mime_type := f.mimetype
    filesize := size
    width := if ftype = "image" then f.metaResult.map (fun p => p.1) else none
    height := if ftype = "image" then f.metaResult.map (fun p => p.2) else none
    duration := none
    sort_order := i
    hash := none }

/-- Entry of the `results` array pushed for each stored file
(gallery-admin.js lines 723-728): `{ id: mediaId, filename, size, type }`.
`id` is an `Option` because `createMedia`'s return value is `undefined`. -/
structure FileResult where
  id : Option Nat
  filename : String
  size : Nat
  ftype : String
deriving DecidableEq, Repr

/-- Response sent by the upload route: either the success JSON
`{ success: true, uploaded, files }` or an error JSON with HTTP status. -/
inductive UploadResponse where
  | ok (uploaded : Nat) (files : List FileResult)
  | err (status : Nat) (msg : String)
deriving DecidableEq, Repr

/-- Body of the `for` loop of the upload route together with the
enclosing single `try`/`catch` (gallery-admin.js lines 642-746):
`fs.move`, `fs.stat` and `createMedia` failures escape to the outer
catch, which responds 500 and performs no rollback, while
`metadata()`/thumbnail failures are swallowed by the inner `try` (lines
679-701) and the file is still inserted.  After the last file,
`updateSetStats` runs and the success summary is returned. -/
def uploadLoop (slug : String) (setId : Nat) :
    List UploadFile → GalleryDb → Nat → List FileResult → GalleryDb × UploadResponse
  | [], db, _, acc => (updateSetStats db setId, UploadResponse.ok acc.length acc)
  | f :: rest, db, i, acc =>
    if f.moveFails then (db, UploadResponse.err 500 "Upload failed")
    else
      match f.statResult with
      | none => (db, UploadResponse.err 500 "Upload failed")
      | some size =>
        if f.insertFails then (db, UploadResponse.err 500 "Upload failed")
        else
          let md := mkMediaData slug setId i f size
          let cm := createMedia db md
          uploadLoop slug setId rest cm.1 (i + 1)
            (acc ++ [{ id := cm.2, filename := md.filename, size := size, ftype := md.file_type }])

/-- Embedding of `router.post('/sets/:id/upload')` (gallery-admin.js lines 641-747):
look up the set (404 if absent), reject an empty file list (400), then
process the files one by one with the loop above. -/
def uploadSetMedia (db : GalleryDb) (sid : Nat) (files : List UploadFile) :
    GalleryDb × UploadResponse :=
  match lookupSet db.sets sid with
  | none => (db, UploadResponse.err 404 "Set not found")
  | some set =>
    if files.isEmpty then (db, UploadResponse.err 400 "No files uploaded")
    else uploadLoop set.slug sid files db 0 []

/-! ## The thumbnail cascade (autoThumbnailService.js) -/

/-- JavaScript truthiness of a nullable string column: `null`/`undefined`
and the empty string are falsy. -/
def truthy : Option String → Bool
  | none => false
  | some s => !(s == "")

/-- Target entity of one `generateThumbnailFromMedia` invocation, used to
key the generation oracle of the cascade environment. -/
inductive GenTarget where
  | setTgt (slug : String)
  | modelTgt (slug : String)
  | studioTgt (slug : String)
deriving DecidableEq, Repr

/-- Environment of one cascade run: for each generation target, whether
the `sharp`/ffmpeg derivative generation succeeds or throws. -/
structure CascadeEnv where
  genOk : GenTarget → Bool

/-- Embedding of `autoThumbnailService.generateThumbnailFromMedia` (lines 119-153):
on success returns the pair of stored paths
`outputDir/baseName.webp` and `outputDir/baseName_thumb.webp`;
any `sharp`/video-extraction failure throws. -/
def generateThumbnailFromMedia (env : CascadeEnv) (tgt : GenTarget)
    (outputDir baseName : String) : Except Unit (String × String) :=
  if env.genOk tgt then
    Except.ok (outputDir ++ "/" ++ baseName ++ ".webp",
               outputDir ++ "/" ++ baseName ++ "_thumb.webp")
  else Except.error ()

/-- Embedding of `galleryDatabase.updateSetThumbnail`: SQL UPDATE of both cover
columns of every set row with the given id. -/
def updateSetThumbnailRows (l : List SetRow) (tid : Nat) (p t : String) : List SetRow :=
  l.map fun s =>
    if s.id == tid then { s with cover_image_path := some p, cover_thumb_path := some t } else s

/-- Embedding of `galleryDatabase.updateModelThumbnail`: SQL UPDATE of both profile
columns of every model row with the given id. -/
def updateModelThumbnailRows (l : List ModelRow) (tid : Nat) (p t : String) : List ModelRow :=
  l.map fun m =>
    if m.id == tid then { m with profile_image_path := some p, profile_thumb_path := some t } else m

/-- Embedding of `galleryDatabase.updateStudioThumbnail`: SQL UPDATE of both logo
columns of every studio row with the given id. -/
def updateStudioThumbnailRows (l : List StudioRow) (tid : Nat) (p t : String) : List StudioRow :=
  l.map fun s =>
    if s.id == tid then { s with logo_path := some p, logo_thumb_path := some t } else s

/-- Embedding of `autoThumbnailService.updateSetThumbnailIfNeeded` (lines 53-70):
no-op if both cover columns are truthy, otherwise generate the cover
derivative (which may throw) and persist both paths. -/
def updateSetThumbnailIfNeeded (env : CascadeEnv) (l : List SetRow) (set : SetRow) :
    Except Unit (List SetRow) :=
  if truthy set.cover_image_path && truthy set.cover_thumb_path then Except.ok l
  else
    match generateThumbnailFromMedia env (GenTarget.setTgt set.slug)
        ("uploads/covers/sets/" ++ set.slug) ("cover_" ++ set.slug) with
    | Except.error e => Except.error e
    | Except.ok pt => Except.ok (updateSetThumbnailRows l set.id pt.1 pt.2)

/-- Embedding of `autoThumbnailService.updateModelThumbnailIfNeeded` (lines 75-92). -/
def updateModelThumbnailIfNeeded (env : CascadeEnv) (l : List ModelRow) (model : ModelRow) :
    Except Unit (List ModelRow) :=
  if truthy model.profile_image_path && truthy model.profile_thumb_path then Except.ok l
  else
    match generateThumbnailFromMedia env (GenTarget.modelTgt model.slug)
        ("uploads/covers/models/" ++ model.slug) ("profile_" ++ model.slug) with
    | Except.error e => Except.error e
    | Except.ok pt => Except.ok (updateModelThumbnailRows l model.id pt.1 pt.2)

/-- Embedding of `autoThumbnailService.updateStudioThumbnailIfNeeded` (lines 97-114). -/
def updateStudioThumbnailIfNeeded (env : CascadeEnv) (l : List StudioRow) (sd : StudioRow) :
    Except Unit (List StudioRow) :=
  if truthy sd.logo_path && truthy sd.logo_thumb_path then Except.ok l
  else
    match generateThumbnailFromMedia env (GenTarget.studioTgt sd.slug)
        ("uploads/covers/studios/" ++ sd.slug) ("logo_" ++ sd.slug) with
    | Except.error e => Except.error e
    | Except.ok pt => Except.ok (updateStudioThumbnailRows l sd.id pt.1 pt.2)

/-- State of the three entity tables seen by the cascade. -/
structure CascadeState where
  sets : List SetRow
  models : List ModelRow
  studios : List StudioRow
deriving DecidableEq, Repr

/-- Studio step of `updateEntityThumbnails` (autoThumbnailService.js
lines 36-41): if the model has a studio, resolve it and backfill its
logo when needed; a throw leaves the state as it stands. -/
def cascadeStudio (env : CascadeEnv) (st2 : CascadeState) (model : ModelRow) : CascadeState :=
  match model.studio_id with
  | none => st2
  | some sdId =>
    match getStudioById st2.studios sdId with
    | none => st2
    | some sd =>
      match updateStudioThumbnailIfNeeded env st2.studios sd with
      | Except.error _ => st2
      | Except.ok studios1 => { st2 with studios := studios1 }

/-- Model-and-studio half of `updateEntityThumbnails`
(autoThumbnailService.js lines 30-42): resolve the owning model,
backfill its profile image when needed, then continue to the studio; a
throw at the model level skips the studio level (single outer catch). -/
def cascadeModelStudio (env : CascadeEnv) (st1 : CascadeState) (set : SetRow) : CascadeState :=
  match getModelById st1.models set.model_id with
  | none => st1
  | some model =>
    match updateModelThumbnailIfNeeded env st1.models model with
    | Except.error _ => st1
    | Except.ok models1 => cascadeStudio env { st1 with models := models1 } model

/-- Embedding of `autoThumbnailService.updateEntityThumbnails` (lines 16-48): one
`try`/`catch` wraps the whole set → model → studio walk, so the first
throw anywhere aborts every remaining level; updates committed before
the throw persist, and the catch swallows the error (the caller never
sees it). -/
def updateEntityThumbnails (env : CascadeEnv) (st : CascadeState) (media : MediaRow) :
    CascadeState :=
  match lookupSet st.sets media.set_id with
  | none => st
  | some set =>
    match updateSetThumbnailIfNeeded env st.sets set with
    | Except.error _ => st
    | Except.ok sets1 => cascadeModelStudio env { st with sets := sets1 } set

/-! ## Supporting lemmas about the upload loop -/

/-- Projection of a set row to the fields the upload route never writes:
id and the two cover columns. -/
def coverProj (s : SetRow) : Nat × Option String × Option String :=
  (s.id, s.cover_image_path, s.cover_thumb_path)

lemma updateSetStats_media (db : GalleryDb) (sid : Nat) :
    (updateSetStats db sid).media = db.media := rfl

lemma updateSetStats_coverProj (db : GalleryDb) (sid : Nat) :
    (updateSetStats db sid).sets.map coverProj = db.sets.map coverProj := by
  show (db.sets.map _).map coverProj = _
  rw [List.map_map]
  induction db.sets with
  | nil => rfl
  | cons a l ih =>
    simp only [List.map_cons, ih]
    congr 1
    simp only [Function.comp_apply]
    split <;> rfl

lemma createMedia_fst_media (db : GalleryDb) (d : MediaData) :
    (createMedia db d).1.media = db.media ++ [mkMediaRow db.nextMediaId d] := rfl

lemma createMedia_fst_sets (db : GalleryDb) (d : MediaData) :
    (createMedia db d).1.sets = db.sets := rfl

/-- Central description of one run of the upload loop: the media table
only grows by a suffix of fresh rows whose `sort_order`s are the
consecutive integers starting at the loop counter, whose `hash` is
always null and whose `set_id` is the target set, and the id/cover
projection of the sets table is untouched. -/
lemma uploadLoop_spec (slug : String) (sid : Nat) :
    ∀ (files : List UploadFile) (db : GalleryDb) (i : Nat) (acc : List FileResult),
      ∃ new : List MediaRow,
        (uploadLoop slug sid files db i acc).1.media = db.media ++ new ∧
        new.map (fun r => r.sort_order) = List.range' i new.length ∧
        (∀ r ∈ new, r.hash = none ∧ r.set_id = sid) ∧
        (uploadLoop slug sid files db i acc).1.sets.map coverProj = db.sets.map coverProj := by
  intro files
  induction files with
  | nil =>
    intro db i acc
    exact ⟨[], by simp [uploadLoop, updateSetStats_media], by simp, by simp,
           by simpa [uploadLoop] using updateSetStats_coverProj db sid⟩
  | cons f rest ih =>
    intro db i acc
    by_cases hmv : f.moveFails = true
    · refine ⟨[], ?_, by simp, by simp, ?_⟩ <;> simp [uploadLoop, hmv]
    · cases hst : f.statResult with
      | none => refine ⟨[], ?_, by simp, by simp, ?_⟩ <;> simp [uploadLoop, hmv, hst]
      | some size =>
        by_cases hins : f.insertFails = true
        · refine ⟨[], ?_, by simp, by simp, ?_⟩ <;> simp [uploadLoop, hmv, hst, hins]
        · obtain ⟨new, h1, h2, h3, h4⟩ :=
            ih (createMedia db (mkMediaData slug sid i f size)).1 (i + 1)
              (acc ++ [{ id := (createMedia db (mkMediaData slug sid i f size)).2,
                         filename := (mkMediaData slug sid i f size).filename,
                         size := size,
                         ftype := (mkMediaData slug sid i f size).file_type }])
          refine ⟨mkMediaRow db.nextMediaId (mkMediaData slug sid i f size) :: new, ?_, ?_, ?_, ?_⟩
          · simp only [uploadLoop, hmv, hst, Bool.false_eq_true, if_false, hins]
            rw [h1, createMedia_fst_media]
            simp
          · simp only [List.map_cons, List.length_cons, List.range'_succ]
            rw [h2]
            rfl
          · intro r hr
            rcases List.mem_cons.mp hr with rfl | hr'
            · exact ⟨rfl, rfl⟩
            · exact h3 r hr'
          · simp only [uploadLoop, hmv, hst, Bool.false_eq_true, if_false, hins]
            rw [h4, createMedia_fst_sets]

/-! ## Concrete inputs used by counterexamples and witnesses -/

/-- Freshly created set with no cover images and no media. -/
def setA : SetRow :=
  { id := 1, name := "SetA", slug := "seta", model_id := 1,
    cover_image_path := none, cover_thumb_path := none,
    image_count := 0, video_count := 0, total_size_bytes := 0 }

/-- Datastore holding just `setA` and an empty media table. -/
def dbA : GalleryDb := { sets := [setA], media := [], nextMediaId := 1 }

/-- Ordinary jpeg upload on which every filesystem operation succeeds. -/
def fileJpg : UploadFile :=
  { originalname := "a.jpg", mimetype := "image/jpeg", moveFails := false,
    metaResult := some (800, 600), thumbFails := false,
    statResult := some 1234, insertFails := false }

/-- Upload whose `fs.move` into the media directory throws. -/
def fileMove : UploadFile := { fileJpg with originalname := "b.jpg", moveFails := true }

/-- Ordinary png upload on which every filesystem operation succeeds. -/
def filePng : UploadFile := { fileJpg with originalname := "c.png", mimetype := "image/png" }

/-- Upload whose thumbnail generation throws (inner try, non-fatal). -/
def fileThumbFail : UploadFile := { fileJpg with originalname := "d.jpg", thumbFails := true }

/-- Upload whose `sharp().metadata()` throws (inner try, non-fatal). -/
def fileMetaFail : UploadFile := { fileJpg with originalname := "e.jpg", metaResult := none }

/-- Upload of a file that is byte-identical to `fileJpg` but carries a
different original name, so its `fs.move` destination
`uploads/media/seta/b.jpg` is fresh and the move succeeds.  Identical
bytes mean identical dimensions and size — and, per the spec's
ContentHasher, an identical non-null content hash. -/
def fileJpgDup : UploadFile := { fileJpg with originalname := "b.jpg" }

/-- Re-upload of `fileJpg` under its own name after a run that already
stored it: `fs.move` (fs-extra, default `overwrite: false`) rejects
because the destination `uploads/media/seta/a.jpg` left by the first
run exists, so the move throws — modelled by `moveFails := true`. -/
def fileJpgRerun : UploadFile := { fileJpg with moveFails := true }

/-! ## Claim theorems about the ingestion pipeline -/

/-- C1 — evaluation of the code at the failing input.  The spec claims a
file whose non-null content hash already appears among the set's Media
rows is recorded as a skipped duplicate: not written, no new row, and
processing continues.  The code computes no hash at all (`hash: null
// TODO`, gallery-admin.js line 720) and performs no duplicate check.
First conjuncts: one run ingesting two byte-identical files under
different names (`a.jpg` then `b.jpg`) — whose content hashes per the
spec are equal and non-null — writes and inserts BOTH as Media rows of
the set (each with null hash) and reports 2 uploaded, 0 skipped.
Last conjuncts: literally re-uploading `a.jpg` into the same set does
not skip-and-continue either — `fs.move` rejects on the existing
destination and the run aborts with the 500 error response, inserting
nothing. -/
theorem c1_duplicate_content_not_skipped :
    ((uploadSetMedia dbA 1 [fileJpg, fileJpgDup]).1.media.map
        (fun r => (r.set_id, r.filename, r.hash)))
      = [(1, "a.jpg", none), (1, "b.jpg", none)] ∧
    (uploadSetMedia dbA 1 [fileJpg, fileJpgDup]).2 =
      UploadResponse.ok 2
        [{ id := none, filename := "a.jpg", size := 1234, ftype := "image" },
         { id := none, filename := "b.jpg", size := 1234, ftype := "image" }] ∧
    (uploadSetMedia (uploadSetMedia dbA 1 [fileJpg]).1 1 [fileJpgRerun]).2 =
      UploadResponse.err 500 "Upload failed" ∧
    (uploadSetMedia (uploadSetMedia dbA 1 [fileJpg]).1 1 [fileJpgRerun]).1.media.length = 1 := by
  decide

/-- C2: the Media rows inserted by one run of the upload route into a set
carry `sort_order` values that are exactly `0, 1, …, N-1` where `N` is
the number of files successfully processed in that run, each row's
`sort_order` being the count of files successfully processed before it. -/
theorem c2_sort_order_range (db : GalleryDb) (sid : Nat) (files : List UploadFile) :
    ((uploadSetMedia db sid files).1.media.drop db.media.length).map (fun r => r.sort_order)
      = List.range (((uploadSetMedia db sid files).1.media.drop db.media.length).length) := by
  unfold uploadSetMedia
  cases hfind : lookupSet db.sets sid with
  | none => simp [List.drop_length]
  | some set =>
    by_cases hf : files.isEmpty = true
    · simp [hf, List.drop_length]
    · simp only [hf, Bool.false_eq_true, if_false]
      obtain ⟨new, h1, h2, _, _⟩ := uploadLoop_spec set.slug sid files db 0 []
      rw [h1, List.drop_left, List.range_eq_range']
      exact h2

/-- C3 — counterexample.  A single file is uploaded into a set with no
cover; the response reports it successfully processed, yet the set's
cover image paths are still null afterwards: the upload route never
updates the cover (and `autoThumbnailService` is not invoked by it). -/
theorem c3_cover_not_updated_cex :
    (uploadSetMedia dbA 1 [fileJpg]).2 =
      UploadResponse.ok 1 [{ id := none, filename := "a.jpg", size := 1234, ftype := "image" }] ∧
    ((lookupSet (uploadSetMedia dbA 1 [fileJpg]).1.sets 1).map
        (fun s => (s.cover_image_path, s.cover_thumb_path))) = some (none, none) := by
  decide

/-- C3 (amended): the bulk upload route never modifies any set's cover
image paths — the id/cover projection of the sets table is identical
before and after a run, whatever files are processed. -/
theorem c3_cover_paths_unchanged (db : GalleryDb) (sid : Nat) (files : List UploadFile) :
    (uploadSetMedia db sid files).1.sets.map coverProj = db.sets.map coverProj := by
  unfold uploadSetMedia
  cases hfind : lookupSet db.sets sid with
  | none => rfl
  | some set =>
    by_cases hf : files.isEmpty = true
    · simp [hf]
    · simp only [hf, Bool.false_eq_true, if_false]
      obtain ⟨_, _, _, _, h4⟩ := uploadLoop_spec set.slug sid files db 0 []
      exact h4

/-- C4 — counterexample.  With three files of which the second one's
`fs.move` throws, the route responds with the 500 error JSON instead of
a summary, the third file is never processed, and the row inserted for
the first file persists (no rollback). -/
theorem c4_error_response_cex :
    (uploadSetMedia dbA 1 [fileJpg, fileMove, filePng]).2 =
      UploadResponse.err 500 "Upload failed" ∧
    (uploadSetMedia dbA 1 [fileJpg, fileMove, filePng]).1.media.length = 1 := by
  decide

/-- Clean input/output description of a file: `fs.move`, `fs.stat` and the INSERT
succeed; `metadata()` and thumbnail generation may still fail. -/
def ioClean (f : UploadFile) : Prop :=
  f.moveFails = false ∧ f.statResult.isSome = true ∧ f.insertFails = false

instance (f : UploadFile) : Decidable (ioClean f) := by
  unfold ioClean
  infer_instance

lemma uploadLoop_clean (slug : String) (sid : Nat) :
    ∀ (files : List UploadFile) (db : GalleryDb) (i : Nat) (acc : List FileResult),
      (∀ f ∈ files, ioClean f) →
      ∃ rs : List FileResult,
        (uploadLoop slug sid files db i acc).2 =
          UploadResponse.ok (acc.length + files.length) (acc ++ rs) ∧
        rs.length = files.length := by
  intro files
  induction files with
  | nil =>
    intro db i acc _
    exact ⟨[], by simp [uploadLoop], rfl⟩
  | cons f rest ih =>
    intro db i acc hclean
    obtain ⟨hmv, hstat, hins⟩ := hclean f (List.mem_cons_self f rest)
    obtain ⟨size, hst⟩ := Option.isSome_iff_exists.mp hstat
    obtain ⟨rs, hok, hlen⟩ :=
      ih (createMedia db (mkMediaData slug sid i f size)).1 (i + 1)
        (acc ++ [{ id := (createMedia db (mkMediaData slug sid i f size)).2,
                   filename := (mkMediaData slug sid i f size).filename,
                   size := size,
                   ftype := (mkMediaData slug sid i f size).file_type }])
        (fun g hg => hclean g (List.mem_cons_of_mem f hg))
    refine ⟨{ id := (createMedia db (mkMediaData slug sid i f size)).2,
              filename := (mkMediaData slug sid i f size).filename,
              size := size,
              ftype := (mkMediaData slug sid i f size).file_type } :: rs, ?_, by simp [hlen]⟩
    simp only [uploadLoop, hmv, hst, hins, Bool.false_eq_true, if_false]
    rw [hok]
    congr 1
    · simp only [List.length_append, List.length_cons, List.length_nil]
      omega
    · simp

/-- C4 (amended): once the set is found and the file list nonempty, if
every file's `fs.move`, `fs.stat` and INSERT succeed then the route
returns the success summary listing all of them — in particular
`metadata()` and thumbnail failures are non-fatal and never abort the
run.  (Failures of move/stat/insert abort instead, see the
counterexample.) -/
theorem c4_io_clean_success (db : GalleryDb) (sid : Nat) (files : List UploadFile)
    (hset : (lookupSet db.sets sid).isSome = true)
    (hne : files ≠ [])
    (hio : ∀ f ∈ files, ioClean f) :
    ∃ rs : List FileResult,
      (uploadSetMedia db sid files).2 = UploadResponse.ok files.length rs ∧
      rs.length = files.length := by
  unfold uploadSetMedia
  obtain ⟨set, hfind⟩ := Option.isSome_iff_exists.mp hset
  rw [hfind]
  have hfe : files.isEmpty = false := by
    cases files with
    | nil => exact absurd rfl hne
    | cons a l => rfl
  simp only [hfe, Bool.false_eq_true, if_false]
  obtain ⟨rs, hok, hlen⟩ := uploadLoop_clean set.slug sid files db 0 [] hio
  exact ⟨rs, by simpa using hok, hlen⟩

/-- C4 witness: a run containing a thumbnail failure and a metadata
failure still returns the success summary for both files. -/
theorem c4_io_clean_success_witness :
    ∃ rs : List FileResult,
      (uploadSetMedia dbA 1 [fileThumbFail, fileMetaFail]).2 =
        UploadResponse.ok 2 rs ∧ rs.length = 2 :=
  c4_io_clean_success dbA 1 [fileThumbFail, fileMetaFail] (by decide) (by decide) (by decide)

/-- States of the datastore reachable from a media-less initial state by
runs of the bulk upload route. -/
inductive PipelineReachable : GalleryDb → Prop where
  | start (sets : List SetRow) (n : Nat) :
      PipelineReachable { sets := sets, media := [], nextMediaId := n }
  | step (db : GalleryDb) (sid : Nat) (files : List UploadFile) :
      PipelineReachable db → PipelineReachable (uploadSetMedia db sid files).1

/-- Uniqueness of `(set_id, hash)` among rows with non-null hash: two
rows of the same set with equal non-null hashes must be the same row. -/
def hashUniqueInv (db : GalleryDb) : Prop :=
  ∀ r1 ∈ db.media, ∀ r2 ∈ db.media,
    r1.set_id = r2.set_id → r1.hash ≠ none → r1.hash = r2.hash → r1 = r2

lemma uploadSetMedia_hash_none (db : GalleryDb) (sid : Nat) (files : List UploadFile)
    (hdb : ∀ r ∈ db.media, r.hash = none) :
    ∀ r ∈ (uploadSetMedia db sid files).1.media, r.hash = none := by
  unfold uploadSetMedia
  cases hfind : lookupSet db.sets sid with
  | none => exact hdb
  | some set =>
    by_cases hf : files.isEmpty = true
    · simpa [hf] using hdb
    · simp only [hf, Bool.false_eq_true, if_false]
      obtain ⟨new, h1, _, h3, _⟩ := uploadLoop_spec set.slug sid files db 0 []
      rw [h1]
      intro r hr
      rcases List.mem_append.mp hr with h | h
      · exact hdb r h
      · exact (h3 r h).1

lemma reachable_hash_none (db : GalleryDb) (h : PipelineReachable db) :
    ∀ r ∈ db.media, r.hash = none := by
  induction h with
  | start sets n => intro r hr; exact absurd hr (List.not_mem_nil r)
  | step db sid files _ ih => exact uploadSetMedia_hash_none db sid files ih

/-- C5: in every datastore state reachable through the ingestion
pipeline, no two Media rows of the same set share the same non-null
hash — vacuously so, because the pipeline records a null hash for every
row it inserts. -/
theorem c5_hash_unique_invariant (db : GalleryDb) (h : PipelineReachable db) :
    hashUniqueInv db := by
  intro r1 h1 _ _ _ hnn _
  exact absurd (reachable_hash_none db h r1 h1) hnn

/-- C5 witness: the invariant holds of the concrete state produced by
uploading two files into `setA`. -/
theorem c5_hash_unique_invariant_witness :
    hashUniqueInv (uploadSetMedia dbA 1 [fileJpg, filePng]).1 :=
  c5_hash_unique_invariant _
    (PipelineReachable.step dbA 1 [fileJpg, filePng] (PipelineReachable.start [setA] 1))

/-- C9 — evaluation of the bug.  `Database.run` resolves the object
`{ id: lastID, changes }`, but `createMedia` returns `result.lastID`,
a property the object does not have: the returned value is `undefined`
(`none`), never the new row's id, although the id is present under the
key `id` and the row was inserted with exactly that id. -/
theorem c9_createMedia_returns_undefined (db : GalleryDb) (d : MediaData) :
    (createMedia db d).2 = none ∧
    ((createMedia db d).1.media.getLast?).map (fun r => r.id) = some db.nextMediaId ∧
    jsGet (jsProps (runInsertMedia db d).2) "id" = some db.nextMediaId := by
  refine ⟨rfl, ?_, rfl⟩
  rw [createMedia_fst_media, List.getLast?_concat]
  rfl

/-! ## Claim theorems about the display variant -/

lemma roundDiv_le (a b c : Nat) (hb : 0 < b) (h : a ≤ b * c) : roundDiv a b ≤ c := by
  have h2b : 0 < 2 * b := by omega
  have hlt : 2 * a + b < (c + 1) * (2 * b) := by
    have hexp : (c + 1) * (2 * b) = 2 * (b * c) + 2 * b := by ring
    omega
  have hdiv := (Nat.div_lt_iff_lt_mul h2b).mpr hlt
  simp only [roundDiv]
  omega

lemma roundDiv_spec (a b : Nat) (hb : 0 < b) :
    2 * (b * roundDiv a b) ≤ 2 * a + b ∧ 2 * a ≤ 2 * (b * roundDiv a b) + b := by
  have h2b : 0 < 2 * b := by omega
  have hdm := Nat.div_add_mod (2 * a + b) (2 * b)
  have hmod := Nat.mod_lt (2 * a + b) h2b
  simp only [roundDiv]
  rw [Nat.mul_assoc] at hdm
  omega

/-- C6: a source image within the 2048 display bound in both dimensions
is passed through unchanged with identical pixel dimensions; in every
case the produced display derivative never exceeds the source
dimensions (no upscaling), never exceeds the bound in either dimension,
and preserves the aspect ratio up to the rounding of one pixel
(cross-multiplied distance at most half the long edge). -/
theorem c6_display_variant_bounds (w h : Nat) (a : Bool) :
    dispWidth (createDisplayVariant w h a) ≤ w ∧
    dispHeight (createDisplayVariant w h a) ≤ h ∧
    dispWidth (createDisplayVariant w h a) ≤ displayMax ∧
    dispHeight (createDisplayVariant w h a) ≤ displayMax ∧
    2 * Nat.dist (dispWidth (createDisplayVariant w h a) * h)
        (w * dispHeight (createDisplayVariant w h a)) ≤ max w h ∧
    (w ≤ displayMax → h ≤ displayMax →
      createDisplayVariant w h a = DisplayResult.copied w h) := by
  by_cases hc : w ≤ displayMax ∧ h ≤ displayMax
  · simp only [createDisplayVariant, if_pos hc, dispWidth, dispHeight]
    refine ⟨Nat.le_refl w, Nat.le_refl h, hc.1, hc.2, ?_, fun _ _ => by trivial⟩
    simp [Nat.dist_self]
  · simp only [createDisplayVariant, if_neg hc]
    by_cases hhw : h ≤ w
    · have hw2 : displayMax < w := by
        rcases Nat.lt_or_ge displayMax w with h1 | h1
        · exact h1
        · exact absurd ⟨h1, Nat.le_trans hhw h1⟩ hc
      have hwpos : 0 < w := Nat.lt_trans (by simp [displayMax]) hw2
      simp only [fitInside, if_pos hhw, dispWidth, dispHeight]
      have hle1 : h * displayMax ≤ w * h := by
        rw [Nat.mul_comm w h]
        exact Nat.mul_le_mul_left h (Nat.le_of_lt hw2)
      have hle2 : h * displayMax ≤ w * displayMax :=
        Nat.mul_le_mul_right displayMax hhw
      obtain ⟨hs1, hs2⟩ := roundDiv_spec (h * displayMax) w hwpos
      refine ⟨Nat.le_of_lt hw2, roundDiv_le _ _ _ hwpos hle1, Nat.le_refl displayMax,
              roundDiv_le _ _ _ hwpos hle2, ?_, fun h1 h2 => absurd ⟨h1, h2⟩ hc⟩
      rw [Nat.mul_comm displayMax h]
      simp only [Nat.dist]
      omega
    · have hh2 : displayMax < h := by
        rcases Nat.lt_or_ge displayMax h with h1 | h1
        · exact h1
        · have hwh : w ≤ h := Nat.le_of_lt (Nat.lt_of_not_le hhw)
          exact absurd ⟨Nat.le_trans hwh h1, h1⟩ hc
      have hhpos : 0 < h := Nat.lt_trans (by simp [displayMax]) hh2
      have hwh : w < h := Nat.lt_of_not_le hhw
      simp only [fitInside, if_neg hhw, dispWidth, dispHeight]
      have hle1 : w * displayMax ≤ h * w := by
        rw [Nat.mul_comm h w]
        exact Nat.mul_le_mul_left w (Nat.le_of_lt hh2)
      have hle2 : w * displayMax ≤ h * displayMax :=
        Nat.mul_le_mul_right displayMax (Nat.le_of_lt hwh)
      obtain ⟨hs1, hs2⟩ := roundDiv_spec (w * displayMax) h hhpos
      refine ⟨roundDiv_le _ _ _ hhpos hle1, Nat.le_of_lt hh2,
              roundDiv_le _ _ _ hhpos hle2, Nat.le_refl displayMax, ?_,
              fun h1 h2 => absurd ⟨h1, h2⟩ hc⟩
      rw [Nat.mul_comm (roundDiv (w * displayMax) h) h]
      simp only [Nat.dist]
      omega

/-- C6 witness: a 1000 × 800 alpha-free source is within the bound in both
dimensions and is passed through unchanged. -/
theorem c6_display_variant_bounds_witness :
    createDisplayVariant 1000 800 false = DisplayResult.copied 1000 800 :=
  (c6_display_variant_bounds 1000 800 false).2.2.2.2.2 (by decide) (by decide)

/-! ## Supporting lemmas about the thumbnail cascade -/

/-- A keyed UPDATE targeting id `tid` leaves a `find?`-lookup at any
other id unchanged, provided the update preserves ids. -/
lemma find?_map_keyed_ne {α : Type} (idf : α → Nat) (upd : α → α)
    (hid : ∀ x, idf (upd x) = idf x) (tid i : Nat) (hne : i ≠ tid) (l : List α) :
    (l.map (fun x => if idf x == tid then upd x else x)).find? (fun x => idf x == i) =
      l.find? (fun x => idf x == i) := by
  induction l with
  | nil => rfl
  | cons a l ih =>
    simp only [List.map_cons, List.find?_cons]
    by_cases hai : (idf a == i) = true
    · have hiaeq : idf a = i := by simpa using hai
      have hat : (idf a == tid) = false := by simp [hiaeq, hne]
      simp only [hat, Bool.false_eq_true, if_false, hai]
    · have hai' : (idf a == i) = false := by
        revert hai; cases idf a == i <;> simp
      have h1 : (idf (if (idf a == tid) = true then upd a else a) == i) = false := by
        split
        · rw [hid]; exact hai'
        · exact hai'
      simp only [h1, hai']
      exact ih

lemma lookupSet_updateSetThumbnailRows_ne (l : List SetRow) (tid : Nat) (p t : String)
    (i : Nat) (hne : i ≠ tid) :
    lookupSet (updateSetThumbnailRows l tid p t) i = lookupSet l i := by
  exact find?_map_keyed_ne (fun s : SetRow => s.id)
    (fun s : SetRow => { s with cover_image_path := some p, cover_thumb_path := some t })
    (fun _ => rfl) tid i hne l

lemma getModelById_updateModelThumbnailRows_ne (l : List ModelRow) (tid : Nat) (p t : String)
    (i : Nat) (hne : i ≠ tid) :
    getModelById (updateModelThumbnailRows l tid p t) i = getModelById l i := by
  exact find?_map_keyed_ne (fun m : ModelRow => m.id)
    (fun m : ModelRow => { m with profile_image_path := some p, profile_thumb_path := some t })
    (fun _ => rfl) tid i hne l

lemma getStudioById_updateStudioThumbnailRows_ne (l : List StudioRow) (tid : Nat) (p t : String)
    (i : Nat) (hne : i ≠ tid) :
    getStudioById (updateStudioThumbnailRows l tid p t) i = getStudioById l i := by
  exact find?_map_keyed_ne (fun s : StudioRow => s.id)
    (fun s : StudioRow => { s with logo_path := some p, logo_thumb_path := some t })
    (fun _ => rfl) tid i hne l

lemma cascadeStudio_sets (env : CascadeEnv) (st2 : CascadeState) (model : ModelRow) :
    (cascadeStudio env st2 model).sets = st2.sets := by
  unfold cascadeStudio
  repeat' split
  all_goals rfl

lemma cascadeStudio_models (env : CascadeEnv) (st2 : CascadeState) (model : ModelRow) :
    (cascadeStudio env st2 model).models = st2.models := by
  unfold cascadeStudio
  repeat' split
  all_goals rfl

lemma cascadeModelStudio_sets (env : CascadeEnv) (st1 : CascadeState) (set : SetRow) :
    (cascadeModelStudio env st1 set).sets = st1.sets := by
  unfold cascadeModelStudio
  repeat' split
  · rfl
  · rfl
  · exact cascadeStudio_sets env _ _

lemma updateSetThumbnailIfNeeded_ok (env : CascadeEnv) (l : List SetRow) (set : SetRow)
    (sets1 : List SetRow) (h : updateSetThumbnailIfNeeded env l set = Except.ok sets1) :
    sets1 = l ∨
    ((truthy set.cover_image_path && truthy set.cover_thumb_path) = false ∧
      ∃ p t, sets1 = updateSetThumbnailRows l set.id p t) := by
  unfold updateSetThumbnailIfNeeded at h
  by_cases hg : (truthy set.cover_image_path && truthy set.cover_thumb_path) = true
  · rw [if_pos hg] at h
    injection h with h2
    exact Or.inl h2.symm
  · have hg' : (truthy set.cover_image_path && truthy set.cover_thumb_path) = false := by
      revert hg; cases truthy set.cover_image_path && truthy set.cover_thumb_path <;> simp
    rw [hg'] at h
    simp only [Bool.false_eq_true, if_false] at h
    unfold generateThumbnailFromMedia at h
    by_cases hgen : env.genOk (GenTarget.setTgt set.slug) = true
    · rw [if_pos hgen] at h
      injection h with h2
      exact Or.inr ⟨hg', _, _, h2.symm⟩
    · rw [if_neg hgen] at h
      simp at h

lemma updateModelThumbnailIfNeeded_ok (env : CascadeEnv) (l : List ModelRow) (model : ModelRow)
    (models1 : List ModelRow) (h : updateModelThumbnailIfNeeded env l model = Except.ok models1) :
    models1 = l ∨
    ((truthy model.profile_image_path && truthy model.profile_thumb_path) = false ∧
      ∃ p t, models1 = updateModelThumbnailRows l model.id p t) := by
  unfold updateModelThumbnailIfNeeded at h
  by_cases hg : (truthy model.profile_image_path && truthy model.profile_thumb_path) = true
  · rw [if_pos hg] at h
    injection h with h2
    exact Or.inl h2.symm
  · have hg' : (truthy model.profile_image_path && truthy model.profile_thumb_path) = false := by
      revert hg; cases truthy model.profile_image_path && truthy model.profile_thumb_path <;> simp
    rw [hg'] at h
    simp only [Bool.false_eq_true, if_false] at h
    unfold generateThumbnailFromMedia at h
    by_cases hgen : env.genOk (GenTarget.modelTgt model.slug) = true
    · rw [if_pos hgen] at h
      injection h with h2
      exact Or.inr ⟨hg', _, _, h2.symm⟩
    · rw [if_neg hgen] at h
      simp at h

lemma updateStudioThumbnailIfNeeded_ok (env : CascadeEnv) (l : List StudioRow) (sd : StudioRow)
    (studios1 : List StudioRow) (h : updateStudioThumbnailIfNeeded env l sd = Except.ok studios1) :
    studios1 = l ∨
    ((truthy sd.logo_path && truthy sd.logo_thumb_path) = false ∧
      ∃ p t, studios1 = updateStudioThumbnailRows l sd.id p t) := by
  unfold updateStudioThumbnailIfNeeded at h
  by_cases hg : (truthy sd.logo_path && truthy sd.logo_thumb_path) = true
  · rw [if_pos hg] at h
    injection h with h2
    exact Or.inl h2.symm
  · have hg' : (truthy sd.logo_path && truthy sd.logo_thumb_path) = false := by
      revert hg; cases truthy sd.logo_path && truthy sd.logo_thumb_path <;> simp
    rw [hg'] at h
    simp only [Bool.false_eq_true, if_false] at h
    unfold generateThumbnailFromMedia at h
    by_cases hgen : env.genOk (GenTarget.studioTgt sd.slug) = true
    · rw [if_pos hgen] at h
      injection h with h2
      exact Or.inr ⟨hg', _, _, h2.symm⟩
    · rw [if_neg hgen] at h
      simp at h

lemma updateEntityThumbnails_sets_char (env : CascadeEnv) (st : CascadeState) (media : MediaRow) :
    (updateEntityThumbnails env st media).sets = st.sets ∨
    ∃ set p t, lookupSet st.sets media.set_id = some set ∧
      (truthy set.cover_image_path && truthy set.cover_thumb_path) = false ∧
      (updateEntityThumbnails env st media).sets = updateSetThumbnailRows st.sets set.id p t := by
  cases hL : lookupSet st.sets media.set_id with
  | none =>
    left
    rw [show updateEntityThumbnails env st media = st by
      simp only [updateEntityThumbnails, hL]]
  | some set =>
    cases hU : updateSetThumbnailIfNeeded env st.sets set with
    | error e =>
      left
      rw [show updateEntityThumbnails env st media = st by
        simp only [updateEntityThumbnails, hL, hU]]
    | ok sets1 =>
      have he : updateEntityThumbnails env st media =
          cascadeModelStudio env { st with sets := sets1 } set := by
        simp only [updateEntityThumbnails, hL, hU]
      have hsets : (cascadeModelStudio env { st with sets := sets1 } set).sets = sets1 :=
        cascadeModelStudio_sets env _ set
      rcases updateSetThumbnailIfNeeded_ok env st.sets set sets1 hU with h | ⟨hg, p, t, hupd⟩
      · left
        rw [he, hsets, h]
      · right
        exact ⟨set, p, t, rfl, hg, by rw [he, hsets, hupd]⟩

lemma cascadeModelStudio_models_char (env : CascadeEnv) (st1 : CascadeState) (set : SetRow) :
    (cascadeModelStudio env st1 set).models = st1.models ∨
    ∃ model p t, getModelById st1.models set.model_id = some model ∧
      (truthy model.profile_image_path && truthy model.profile_thumb_path) = false ∧
      (cascadeModelStudio env st1 set).models = updateModelThumbnailRows st1.models model.id p t := by
  cases hM : getModelById st1.models set.model_id with
  | none =>
    left
    rw [show cascadeModelStudio env st1 set = st1 by
      simp only [cascadeModelStudio, hM]]
  | some model =>
    cases hU : updateModelThumbnailIfNeeded env st1.models model with
    | error e =>
      left
      rw [show cascadeModelStudio env st1 set = st1 by
        simp only [cascadeModelStudio, hM, hU]]
    | ok models1 =>
      have he : cascadeModelStudio env st1 set =
          cascadeStudio env { st1 with models := models1 } model := by
        simp only [cascadeModelStudio, hM, hU]
      have hmdl : (cascadeStudio env { st1 with models := models1 } model).models = models1 :=
        cascadeStudio_models env _ model
      rcases updateModelThumbnailIfNeeded_ok env st1.models model models1 hU with
        h | ⟨hg, p, t, hupd⟩
      · left
        rw [he, hmdl, h]
      · right
        exact ⟨model, p, t, rfl, hg, by rw [he, hmdl, hupd]⟩

lemma updateEntityThumbnails_models_char (env : CascadeEnv) (st : CascadeState) (media : MediaRow) :
    (updateEntityThumbnails env st media).models = st.models ∨
    ∃ mid model p t, getModelById st.models mid = some model ∧
      (truthy model.profile_image_path && truthy model.profile_thumb_path) = false ∧
      (updateEntityThumbnails env st media).models = updateModelThumbnailRows st.models model.id p t := by
  cases hL : lookupSet st.sets media.set_id with
  | none =>
    left
    rw [show updateEntityThumbnails env st media = st by
      simp only [updateEntityThumbnails, hL]]
  | some set =>
    cases hU : updateSetThumbnailIfNeeded env st.sets set with
    | error e =>
      left
      rw [show updateEntityThumbnails env st media = st by
        simp only [updateEntityThumbnails, hL, hU]]
    | ok sets1 =>
      have he : updateEntityThumbnails env st media =
          cascadeModelStudio env { st with sets := sets1 } set := by
        simp only [updateEntityThumbnails, hL, hU]
      rcases cascadeModelStudio_models_char env { st with sets := sets1 } set with
        h | ⟨model, p, t, hM, hg, hupd⟩
      · left
        rw [he]
        exact h
      · right
        exact ⟨set.model_id, model, p, t, hM, hg, by rw [he]; exact hupd⟩

lemma cascadeStudio_studios_char (env : CascadeEnv) (st2 : CascadeState) (model : ModelRow) :
    (cascadeStudio env st2 model).studios = st2.studios ∨
    ∃ sdId sd p t, getStudioById st2.studios sdId = some sd ∧
      (truthy sd.logo_path && truthy sd.logo_thumb_path) = false ∧
      (cascadeStudio env st2 model).studios = updateStudioThumbnailRows st2.studios sd.id p t := by
  cases hSid : model.studio_id with
  | none =>
    left
    rw [show cascadeStudio env st2 model = st2 by
      simp only [cascadeStudio, hSid]]
  | some sdId =>
    cases hG : getStudioById st2.studios sdId with
    | none =>
      left
      rw [show cascadeStudio env st2 model = st2 by
        simp only [cascadeStudio, hSid, hG]]
    | some sd =>
      cases hU : updateStudioThumbnailIfNeeded env st2.studios sd with
      | error e =>
        left
        rw [show cascadeStudio env st2 model = st2 by
          simp only [cascadeStudio, hSid, hG, hU]]
      | ok studios1 =>
        have he : cascadeStudio env st2 model = { st2 with studios := studios1 } := by
          simp only [cascadeStudio, hSid, hG, hU]
        rcases updateStudioThumbnailIfNeeded_ok env st2.studios sd studios1 hU with
          h | ⟨hg, p, t, hupd⟩
        · left
          rw [he]
          exact h
        · right
          exact ⟨sdId, sd, p, t, hG, hg, by rw [he]; exact hupd⟩

lemma cascadeModelStudio_studios_char (env : CascadeEnv) (st1 : CascadeState) (set : SetRow) :
    (cascadeModelStudio env st1 set).studios = st1.studios ∨
    ∃ sdId sd p t, getStudioById st1.studios sdId = some sd ∧
      (truthy sd.logo_path && truthy sd.logo_thumb_path) = false ∧
      (cascadeModelStudio env st1 set).studios = updateStudioThumbnailRows st1.studios sd.id p t := by
  cases hM : getModelById st1.models set.model_id with
  | none =>
    left
    rw [show cascadeModelStudio env st1 set = st1 by
      simp only [cascadeModelStudio, hM]]
  | some model =>
    cases hU : updateModelThumbnailIfNeeded env st1.models model with
    | error e =>
      left
      rw [show cascadeModelStudio env st1 set = st1 by
        simp only [cascadeModelStudio, hM, hU]]
    | ok models1 =>
      have he : cascadeModelStudio env st1 set =
          cascadeStudio env { st1 with models := models1 } model := by
        simp only [cascadeModelStudio, hM, hU]
      rcases cascadeStudio_studios_char env { st1 with models := models1 } model with
        h | ⟨sdId, sd, p, t, hG, hg, hupd⟩
      · left
        rw [he]
        exact h
      · right
        exact ⟨sdId, sd, p, t, hG, hg, by rw [he]; exact hupd⟩

lemma updateEntityThumbnails_studios_char (env : CascadeEnv) (st : CascadeState) (media : MediaRow) :
    (updateEntityThumbnails env st media).studios = st.studios ∨
    ∃ sdId sd p t, getStudioById st.studios sdId = some sd ∧
      (truthy sd.logo_path && truthy sd.logo_thumb_path) = false ∧
      (updateEntityThumbnails env st media).studios = updateStudioThumbnailRows st.studios sd.id p t := by
  cases hL : lookupSet st.sets media.set_id with
  | none =>
    left
    rw [show updateEntityThumbnails env st media = st by
      simp only [updateEntityThumbnails, hL]]
  | some set =>
    cases hU : updateSetThumbnailIfNeeded env st.sets set with
    | error e =>
      left
      rw [show updateEntityThumbnails env st media = st by
        simp only [updateEntityThumbnails, hL, hU]]
    | ok sets1 =>
      have he : updateEntityThumbnails env st media =
          cascadeModelStudio env { st with sets := sets1 } set := by
        simp only [updateEntityThumbnails, hL, hU]
      rcases cascadeModelStudio_studios_char env { st with sets := sets1 } set with
        h | ⟨sdId, sd, p, t, hG, hg, hupd⟩
      · left
        rw [he]
        exact h
      · right
        exact ⟨sdId, sd, p, t, hG, hg, by rw [he]; exact hupd⟩

lemma lookupSet_id (l : List SetRow) (i : Nat) (s : SetRow)
    (h : lookupSet l i = some s) : s.id = i := by
  unfold lookupSet at h
  simpa using List.find?_some h

lemma getModelById_id (l : List ModelRow) (i : Nat) (m : ModelRow)
    (h : getModelById l i = some m) : m.id = i := by
  unfold getModelById at h
  simpa using List.find?_some h

lemma getStudioById_id (l : List StudioRow) (i : Nat) (s : StudioRow)
    (h : getStudioById l i = some s) : s.id = i := by
  unfold getStudioById at h
  simpa using List.find?_some h

/-! ## Claim theorems about the thumbnail cascade -/

/-- C7: the cascade never overwrites a thumbnail at a level whose both
path fields are populated (truthy): every set, model or studio row that
is fully populated before a cascade run is still found unchanged after
it — in particular a second run on the same media item is a no-op at
every level the first run (or anything else) already populated. -/
theorem c7_cascade_idempotent (env : CascadeEnv) (st : CascadeState) (media : MediaRow) :
    (∀ i s, lookupSet st.sets i = some s → truthy s.cover_image_path = true →
        truthy s.cover_thumb_path = true →
        lookupSet (updateEntityThumbnails env st media).sets i = some s) ∧
    (∀ i m, getModelById st.models i = some m → truthy m.profile_image_path = true →
        truthy m.profile_thumb_path = true →
        getModelById (updateEntityThumbnails env st media).models i = some m) ∧
    (∀ i d, getStudioById st.studios i = some d → truthy d.logo_path = true →
        truthy d.logo_thumb_path = true →
        getStudioById (updateEntityThumbnails env st media).studios i = some d) := by
  refine ⟨?_, ?_, ?_⟩
  · intro i s hs h1 h2
    rcases updateEntityThumbnails_sets_char env st media with heq | ⟨set, p, t, hL, hg, heq⟩
    · rw [heq]; exact hs
    · rw [heq]
      have hne : i ≠ set.id := by
        intro hie
        have hsid : set.id = media.set_id := lookupSet_id _ _ _ hL
        rw [hie, hsid] at hs
        rw [hL] at hs
        injection hs with hss
        rw [hss] at hg
        simp [h1, h2] at hg
      rw [lookupSet_updateSetThumbnailRows_ne _ _ _ _ _ hne]
      exact hs
  · intro i m hs h1 h2
    rcases updateEntityThumbnails_models_char env st media with heq | ⟨mid, model, p, t, hM, hg, heq⟩
    · rw [heq]; exact hs
    · rw [heq]
      have hne : i ≠ model.id := by
        intro hie
        have hmid : model.id = mid := getModelById_id _ _ _ hM
        rw [hie, hmid] at hs
        rw [hM] at hs
        injection hs with hss
        rw [hss] at hg
        simp [h1, h2] at hg
      rw [getModelById_updateModelThumbnailRows_ne _ _ _ _ _ hne]
      exact hs
  · intro i d hs h1 h2
    rcases updateEntityThumbnails_studios_char env st media with heq | ⟨sdId, sd, p, t, hG, hg, heq⟩
    · rw [heq]; exact hs
    · rw [heq]
      have hne : i ≠ sd.id := by
        intro hie
        have hsid : sd.id = sdId := getStudioById_id _ _ _ hG
        rw [hie, hsid] at hs
        rw [hG] at hs
        injection hs with hss
        rw [hss] at hg
        simp [h1, h2] at hg
      rw [getStudioById_updateStudioThumbnailRows_ne _ _ _ _ _ hne]
      exact hs

/-- Cascade environment in which every derivative generation succeeds. -/
def envAllOk : CascadeEnv := { genOk := fun _ => true }

/-- Fully populated set row. -/
def setFull : SetRow :=
  { setA with
    id := 2
    slug := "setb"
    cover_image_path := some "c.webp"
    cover_thumb_path := some "ct.webp" }

/-- Fully populated model row belonging to a studio. -/
def modelFull : ModelRow :=
  { id := 3, name := "MF", slug := "mf", studio_id := some 4,
    profile_image_path := some "p.webp", profile_thumb_path := some "pt.webp" }

/-- Fully populated studio row. -/
def studioFull : StudioRow :=
  { id := 4, name := "SF", slug := "sf",
    logo_path := some "l.webp", logo_thumb_path := some "lt.webp" }

/-- Cascade state in which every level is already populated. -/
def stFull : CascadeState :=
  { sets := [setFull], models := [modelFull], studios := [studioFull] }

/-- Media row produced by the pipeline for a file of `setFull`. -/
def mediaB : MediaRow := mkMediaRow 2 (mkMediaData "setb" 2 0 fileJpg 1234)

/-- C7 witness: a cascade run over a fully populated hierarchy leaves
the populated set, model and studio rows untouched. -/
theorem c7_cascade_idempotent_witness :
    lookupSet (updateEntityThumbnails envAllOk stFull mediaB).sets 2 = some setFull ∧
    getModelById (updateEntityThumbnails envAllOk stFull mediaB).models 3 = some modelFull ∧
    getStudioById (updateEntityThumbnails envAllOk stFull mediaB).studios 4 = some studioFull :=
  ⟨(c7_cascade_idempotent envAllOk stFull mediaB).1 2 setFull (by decide) (by decide) (by decide),
   (c7_cascade_idempotent envAllOk stFull mediaB).2.1 3 modelFull (by decide) (by decide) (by decide),
   (c7_cascade_idempotent envAllOk stFull mediaB).2.2 4 studioFull (by decide) (by decide) (by decide)⟩

/-- Environment in which set-level derivative generation throws but
model- and studio-level generation would succeed. -/
def envSetFail : CascadeEnv :=
  { genOk := fun t =>
      match t with
      | GenTarget.setTgt _ => false
      | GenTarget.modelTgt _ => true
      | GenTarget.studioTgt _ => true }

/-- Model row with no profile image. -/
def modelM : ModelRow :=
  { id := 1, name := "M", slug := "m1", studio_id := none,
    profile_image_path := none, profile_thumb_path := none }

/-- Cascade state where neither the set cover nor the model profile is
populated. -/
def stC8 : CascadeState := { sets := [setA], models := [modelM], studios := [] }

/-- Media row produced by the pipeline for a file of `setA`. -/
def mediaA : MediaRow := mkMediaRow 1 (mkMediaData "seta" 1 0 fileJpg 1234)

/-- C8 — counterexample.  The set cover is missing and its generation
throws; generation at the model level would succeed, yet after the
cascade run the model's profile image is still unset and the whole
state is unchanged: the single catch in `updateEntityThumbnails` aborts
the walk, so a Set-level error does prevent backfilling the Model. -/
theorem c8_abort_cex :
    updateEntityThumbnails envSetFail stC8 mediaA = stC8 ∧
    (getModelById stC8.models 1).map (fun m => (m.profile_image_path, m.profile_thumb_path))
      = some (none, none) ∧
    envSetFail.genOk (GenTarget.modelTgt "m1") = true := by
  decide

/-- C8 (amended): a derivative-generation error at the Set level is
caught (the cascade returns normally, so it never fails the ingestion),
but it aborts the remaining levels instead of continuing: when the
owning set lacks a populated cover and its generation throws, the
cascade returns the state completely unchanged — the Model and Studio
levels are neither checked nor backfilled. -/
theorem c8_set_failure_aborts_cascade (env : CascadeEnv) (st : CascadeState) (media : MediaRow)
    (set : SetRow) (hL : lookupSet st.sets media.set_id = some set)
    (hg : (truthy set.cover_image_path && truthy set.cover_thumb_path) = false)
    (hgen : env.genOk (GenTarget.setTgt set.slug) = false) :
    updateEntityThumbnails env st media = st := by
  have hU : updateSetThumbnailIfNeeded env st.sets set = Except.error () := by
    unfold updateSetThumbnailIfNeeded
    rw [hg]
    simp only [Bool.false_eq_true, if_false]
    unfold generateThumbnailFromMedia
    rw [hgen]
    simp
  simp only [updateEntityThumbnails, hL, hU]

/-- C8 witness: the amended abort behaviour at the concrete failing
state of the counterexample. -/
theorem c8_set_failure_aborts_cascade_witness :
    updateEntityThumbnails envSetFail stC8 mediaA = stC8 :=
  c8_set_failure_aborts_cascade envSetFail stC8 mediaA setA (by decide) (by decide) (by decide)

/-- C10: the existing-thumbnail guard requires both path fields truthy,
so an entity with exactly one of its two fields populated is not a
no-op: the level function proceeds, regenerates, and overwrites both
fields with the freshly generated derivative paths — shown for the Set
and Studio level functions the claim cites. -/
theorem c10_single_field_overwrite (env : CascadeEnv) (sets : List SetRow) (set : SetRow)
    (studios : List StudioRow) (sd : StudioRow)
    (hset : truthy set.cover_image_path ≠ truthy set.cover_thumb_path)
    (hgenS : env.genOk (GenTarget.setTgt set.slug) = true)
    (hsd : truthy sd.logo_path ≠ truthy sd.logo_thumb_path)
    (hgenD : env.genOk (GenTarget.studioTgt sd.slug) = true) :
    (∃ sets1, updateSetThumbnailIfNeeded env sets set = Except.ok sets1 ∧
      ∀ s ∈ sets1, s.id = set.id →
        s.cover_image_path =
          some ("uploads/covers/sets/" ++ set.slug ++ "/" ++ ("cover_" ++ set.slug) ++ ".webp") ∧
        s.cover_thumb_path =
          some ("uploads/covers/sets/" ++ set.slug ++ "/" ++ ("cover_" ++ set.slug) ++ "_thumb.webp")) ∧
    (∃ studios1, updateStudioThumbnailIfNeeded env studios sd = Except.ok studios1 ∧
      ∀ x ∈ studios1, x.id = sd.id →
        x.logo_path =
          some ("uploads/covers/studios/" ++ sd.slug ++ "/" ++ ("logo_" ++ sd.slug) ++ ".webp") ∧
        x.logo_thumb_path =
          some ("uploads/covers/studios/" ++ sd.slug ++ "/" ++ ("logo_" ++ sd.slug) ++ "_thumb.webp")) := by
  have hgS : (truthy set.cover_image_path && truthy set.cover_thumb_path) = false := by
    revert hset
    cases truthy set.cover_image_path <;> cases truthy set.cover_thumb_path <;> simp
  have hgD : (truthy sd.logo_path && truthy sd.logo_thumb_path) = false := by
    revert hsd
    cases truthy sd.logo_path <;> cases truthy sd.logo_thumb_path <;> simp
  constructor
  · refine ⟨updateSetThumbnailRows sets set.id
        ("uploads/covers/sets/" ++ set.slug ++ "/" ++ ("cover_" ++ set.slug) ++ ".webp")
        ("uploads/covers/sets/" ++ set.slug ++ "/" ++ ("cover_" ++ set.slug) ++ "_thumb.webp"),
      ?_, ?_⟩
    · unfold updateSetThumbnailIfNeeded
      rw [hgS]
      simp only [Bool.false_eq_true, if_false]
      unfold generateThumbnailFromMedia
      rw [hgenS]
      simp
    · intro s hs hid
      obtain ⟨x, hx, rfl⟩ := List.mem_map.mp hs
      by_cases hxt : (x.id == set.id) = true
      · rw [if_pos hxt]
        exact ⟨rfl, rfl⟩
      · rw [if_neg hxt] at hid
        exact absurd (by simp [hid]) hxt
  · refine ⟨updateStudioThumbnailRows studios sd.id
        ("uploads/covers/studios/" ++ sd.slug ++ "/" ++ ("logo_" ++ sd.slug) ++ ".webp")
        ("uploads/covers/studios/" ++ sd.slug ++ "/" ++ ("logo_" ++ sd.slug) ++ "_thumb.webp"),
      ?_, ?_⟩
    · unfold updateStudioThumbnailIfNeeded
      rw [hgD]
      simp only [Bool.false_eq_true, if_false]
      unfold generateThumbnailFromMedia
      rw [hgenD]
      simp
    · intro x hx hid
      obtain ⟨y, hy, rfl⟩ := List.mem_map.mp hx
      by_cases hyt : (y.id == sd.id) = true
      · rw [if_pos hyt]
        exact ⟨rfl, rfl⟩
      · rw [if_neg hyt] at hid
        exact absurd (by simp [hid]) hyt

/-- Set row with only the full-size cover populated. -/
def setHalf : SetRow :=
  { setA with
    id := 5
    slug := "half"
    cover_image_path := some "c.webp"
    cover_thumb_path := none }

/-- Studio row with only the logo thumbnail populated. -/
def studioHalf : StudioRow :=
  { id := 6, name := "SH", slug := "sh",
    logo_path := none, logo_thumb_path := some "lt.webp" }

/-- C10 witness: half-populated set and studio rows are regenerated and
both fields overwritten. -/
theorem c10_single_field_overwrite_witness :
    (∃ sets1, updateSetThumbnailIfNeeded envAllOk [setHalf] setHalf = Except.ok sets1 ∧
      ∀ s ∈ sets1, s.id = setHalf.id →
        s.cover_image_path =
          some ("uploads/covers/sets/" ++ setHalf.slug ++ "/" ++
            ("cover_" ++ setHalf.slug) ++ ".webp") ∧
        s.cover_thumb_path =
          some ("uploads/covers/sets/" ++ setHalf.slug ++ "/" ++
            ("cover_" ++ setHalf.slug) ++ "_thumb.webp")) ∧
    (∃ studios1, updateStudioThumbnailIfNeeded envAllOk [studioHalf] studioHalf =
        Except.ok studios1 ∧
      ∀ x ∈ studios1, x.id = studioHalf.id →
        x.logo_path =
          some ("uploads/covers/studios/" ++ studioHalf.slug ++ "/" ++
            ("logo_" ++ studioHalf.slug) ++ ".webp") ∧
        x.logo_thumb_path =
          some ("uploads/covers/studios/" ++ studioHalf.slug ++ "/" ++
            ("logo_" ++ studioHalf.slug) ++ "_thumb.webp")) :=
  c10_single_field_overwrite envAllOk [setHalf] setHalf [studioHalf] studioHalf
    (by decide) rfl (by decide) rfl
